import Mathlib

/-!
Verification development for the mbedtls PKCS7 module (pkcs7.h and the
signed-data parser and verifier it declares).

The header src/include/mbedtls/pkcs7.h is embedded directly: error-code
constants, the content-type enumeration, and the data structures
mbedtls_pkcs7_signer_info, mbedtls_pkcs7_data, mbedtls_pkcs7_signed_data and
mbedtls_pkcs7.  The function bodies (pkcs7.c) are not part of the source
tree, so the parser, the verification engine and the lifecycle functions are
modelled from the specification: the TLV reading layer, X.509 parsing and
the digest and signature primitives are external collaborators of the core,
so the parser is modelled on the already TLV-decoded view of the input and
the crypto primitives are parameters of the verification engine.
-/

/-! ## Error-code constants, from pkcs7.h lines 61-72 -/

def MBEDTLS_ERR_PKCS7_INVALID_FORMAT : Int := -0x5300

def MBEDTLS_ERR_PKCS7_FEATURE_UNAVAILABLE : Int := -0x5380

def MBEDTLS_ERR_PKCS7_INVALID_VERSION : Int := -0x5400

def MBEDTLS_ERR_PKCS7_INVALID_CONTENT_INFO : Int := -0x5480

def MBEDTLS_ERR_PKCS7_INVALID_ALG : Int := -0x5500

def MBEDTLS_ERR_PKCS7_INVALID_CERT : Int := -0x5580

def MBEDTLS_ERR_PKCS7_INVALID_SIGNATURE : Int := -0x5600

def MBEDTLS_ERR_PKCS7_INVALID_SIGNER_INFO : Int := -0x5680

def MBEDTLS_ERR_PKCS7_BAD_INPUT_DATA : Int := -0x5700

def MBEDTLS_ERR_PKCS7_ALLOC_FAILED : Int := -0x5780

def MBEDTLS_ERR_PKCS7_VERIFY_FAIL : Int := -0x5800

def MBEDTLS_ERR_PKCS7_CERT_DATE_INVALID : Int := -0x5880

/-- Supported signed-data syntax version, pkcs7.h line 79. -/
def MBEDTLS_PKCS7_SUPPORTED_VERSION : Int := 0x01

/-! ## The mbedtls_pkcs7_type enumeration, pkcs7.h lines 105-114.
The C enum starts at MBEDTLS_PKCS7_NONE=0 and increments. -/

def MBEDTLS_PKCS7_NONE : Int := 0

def MBEDTLS_PKCS7_DATA : Int := 1

def MBEDTLS_PKCS7_SIGNED_DATA : Int := 2

def MBEDTLS_PKCS7_ENVELOPED_DATA : Int := 3

def MBEDTLS_PKCS7_SIGNED_AND_ENVELOPED_DATA : Int := 4

def MBEDTLS_PKCS7_DIGESTED_DATA : Int := 5

def MBEDTLS_PKCS7_ENCRYPTED_DATA : Int := 6

/-- The twelve PKCS7 error-code constants, in header order. -/
def pkcs7ErrorCodes : List Int :=
  [MBEDTLS_ERR_PKCS7_INVALID_FORMAT,
   MBEDTLS_ERR_PKCS7_FEATURE_UNAVAILABLE,
   MBEDTLS_ERR_PKCS7_INVALID_VERSION,
   MBEDTLS_ERR_PKCS7_INVALID_CONTENT_INFO,
   MBEDTLS_ERR_PKCS7_INVALID_ALG,
   MBEDTLS_ERR_PKCS7_INVALID_CERT,
   MBEDTLS_ERR_PKCS7_INVALID_SIGNATURE,
   MBEDTLS_ERR_PKCS7_INVALID_SIGNER_INFO,
   MBEDTLS_ERR_PKCS7_BAD_INPUT_DATA,
   MBEDTLS_ERR_PKCS7_ALLOC_FAILED,
   MBEDTLS_ERR_PKCS7_VERIFY_FAIL,
   MBEDTLS_ERR_PKCS7_CERT_DATE_INVALID]

/-- The seven values of the mbedtls_pkcs7_type enumeration. -/
def pkcs7TypeValues : List Int :=
  [MBEDTLS_PKCS7_NONE, MBEDTLS_PKCS7_DATA, MBEDTLS_PKCS7_SIGNED_DATA,
   MBEDTLS_PKCS7_ENVELOPED_DATA, MBEDTLS_PKCS7_SIGNED_AND_ENVELOPED_DATA,
   MBEDTLS_PKCS7_DIGESTED_DATA, MBEDTLS_PKCS7_ENCRYPTED_DATA]

/-! ## Data model, from pkcs7.h lines 86-168.
mbedtls_pkcs7_buf is mbedtls_asn1_buf: a tag plus a pointer and length into
raw bytes; embedded as the tag plus the byte list itself (length is the list
length). -/

/-- Tag-length-value buffer (mbedtls_asn1_buf / mbedtls_pkcs7_buf). -/
structure mbedtls_pkcs7_buf where
  tag : Nat
  bytes : List Nat
deriving DecidableEq

/-- The zeroed buffer: tag 0, no bytes (NULL pointer, length 0). -/
def pkcs7BufZero : mbedtls_pkcs7_buf := ⟨0, []⟩

/-- X.509 certificate view (external collaborator): issuer raw bytes, serial
number, validity window bounds as abstract time points, public key handle. -/
structure mbedtls_x509_crt where
  issuer_raw : mbedtls_pkcs7_buf
  serial : mbedtls_pkcs7_buf
  valid_from : Int
  valid_to : Int
  pk : Nat
deriving DecidableEq

/-- Signer info (pkcs7.h lines 119-130).  The C next-pointer chain is
embedded as a Lean list at the SignedData level; the structured issuer name
is kept as the list of its DER components. -/
structure mbedtls_pkcs7_signer_info where
  version : Int
  serial : mbedtls_pkcs7_buf
  issuer : List mbedtls_pkcs7_buf
  issuer_raw : mbedtls_pkcs7_buf
  alg_identifier : mbedtls_pkcs7_buf
  sig_alg_identifier : mbedtls_pkcs7_buf
  sig : mbedtls_pkcs7_buf
deriving DecidableEq

/-- Attached data (pkcs7.h lines 135-140): content oid plus optional
payload (absent payload is the detached-signature case). -/
structure mbedtls_pkcs7_data where
  oid : mbedtls_pkcs7_buf
  data : Option mbedtls_pkcs7_buf
deriving DecidableEq

/-- Signed-data section (pkcs7.h lines 145-157). -/
structure mbedtls_pkcs7_signed_data where
  version : Int
  digest_alg_identifiers : mbedtls_pkcs7_buf
  content : mbedtls_pkcs7_data
  no_of_certs : Nat
  certs : List mbedtls_x509_crt
  no_of_crls : Nat
  no_of_signers : Nat
  signers : List mbedtls_pkcs7_signer_info
deriving DecidableEq

/-- Top-level PKCS7 structure (pkcs7.h lines 162-168). -/
structure mbedtls_pkcs7 where
  raw : mbedtls_pkcs7_buf
  content_type_oid : mbedtls_pkcs7_buf
  signed_data : mbedtls_pkcs7_signed_data
deriving DecidableEq

/-- The zeroed/empty signed-data section. -/
def signedDataZero : mbedtls_pkcs7_signed_data :=
  ⟨0, pkcs7BufZero, ⟨pkcs7BufZero, none⟩, 0, [], 0, 0, []⟩

/-- The zeroed/empty PKCS7 value. -/
def pkcs7Zero : mbedtls_pkcs7 := ⟨pkcs7BufZero, pkcs7BufZero, signedDataZero⟩

/-- Modelled from the spec: mbedtls_pkcs7_init (pkcs7.c is not in the source
tree).  Produces a zeroed/empty Pkcs7 value; never fails. -/
def mbedtls_pkcs7_init : mbedtls_pkcs7 := pkcs7Zero

/-- Modelled from the spec: mbedtls_pkcs7_free (pkcs7.c is not in the source
tree).  Releases the raw-byte copy, the certificate if owned, and every node
of the signer-info sequence, then resets the value to the zeroed/empty
state; safe to call repeatedly or on a never-parsed value.  In the
embedding, releasing and zeroizing owned memory is resetting every field to
its zero value. -/
def mbedtls_pkcs7_free (_pkcs7 : mbedtls_pkcs7) : mbedtls_pkcs7 :=
  ⟨pkcs7BufZero, pkcs7BufZero,
   ⟨0, pkcs7BufZero, ⟨pkcs7BufZero, none⟩, 0, [], 0, 0, []⟩⟩

/-! ## Parser input: the TLV-decoded view of a DER buffer.
The spec makes the tag-length-value reading primitives an external, trusted
collaborator of the core, so the parser is embedded on the structured view
the TLV reader yields; a buffer whose outer envelope the TLV reader cannot
decode is represented by outerOk = false, and TLV-level failure inside one
signer record by that records malformed flag. -/

/-- The content type declared by the outer ContentInfo object identifier. -/
inductive ContentType where
  | data
  | signedData
  | envelopedData
  | signedAndEnvelopedData
  | digestedData
  | encryptedData
  | unrecognized
deriving DecidableEq

/-- TLV-decoded view of one SignerInfo record before validation. -/
structure RawSignerInfo where
  version : Int
  serial : mbedtls_pkcs7_buf
  issuer : List mbedtls_pkcs7_buf
  issuer_raw : mbedtls_pkcs7_buf
  alg_identifier : mbedtls_pkcs7_buf
  sig_alg_identifier : mbedtls_pkcs7_buf
  sig : mbedtls_pkcs7_buf
  hasAuthenticatedAttributes : Bool
  hasUnauthenticatedAttributes : Bool
  malformed : Bool
deriving DecidableEq

/-- One entry of the optional certificate set: the decoded certificate and
whether the entry is encoded as an X.509 certificate. -/
structure RawCertEntry where
  isX509 : Bool
  cert : mbedtls_x509_crt
deriving DecidableEq

/-- TLV-decoded view of the inner SignedData sequence before validation. -/
structure RawSignedData where
  version : Int
  digestAlgIds : List mbedtls_pkcs7_buf
  contentOid : mbedtls_pkcs7_buf
  contentData : Option mbedtls_pkcs7_buf
  certList : List RawCertEntry
  crlCount : Nat
  signerList : List RawSignerInfo
deriving DecidableEq

/-- TLV-decoded view of a whole DER input buffer. -/
structure ParseInput where
  outerOk : Bool
  contentType : ContentType
  inner : Option RawSignedData
  rawBytes : List Nat
deriving DecidableEq

/-- The DER encoding of the signed-data object identifier 1.2.840.113549.1.7.2
(tag 0x06 = OID). -/
def oidSignedData : mbedtls_pkcs7_buf :=
  ⟨0x06, [0x2a, 0x86, 0x48, 0x86, 0xf7, 0x0d, 0x01, 0x07, 0x02]⟩

/-- Recognized content types other than signed-data (unsupported). -/
def contentTypeUnsupported : ContentType → Bool
  | ContentType.data => true
  | ContentType.envelopedData => true
  | ContentType.signedAndEnvelopedData => true
  | ContentType.digestedData => true
  | ContentType.encryptedData => true
  | _ => false

/-- Modelled from the spec: the SignerInfo Decoder (pkcs7.c is not in the
source tree).  Reads one record: version integer (must equal 1, else invalid
version), issuer and serial, digest-algorithm identifier, signature-algorithm
identifier, signature bytes; any encoded authenticated or unauthenticated
attributes, or a TLV-level decode failure inside the record, is rejected as
invalid signer info. -/
def pkcs7_get_signer_info (r : RawSignerInfo) :
    Except Int mbedtls_pkcs7_signer_info :=
  if r.malformed then Except.error MBEDTLS_ERR_PKCS7_INVALID_SIGNER_INFO
  else if r.version ≠ 1 then Except.error MBEDTLS_ERR_PKCS7_INVALID_VERSION
  else if r.hasAuthenticatedAttributes || r.hasUnauthenticatedAttributes then
    Except.error MBEDTLS_ERR_PKCS7_INVALID_SIGNER_INFO
  else Except.ok ⟨r.version, r.serial, r.issuer, r.issuer_raw,
                  r.alg_identifier, r.sig_alg_identifier, r.sig⟩

/-- Modelled from the spec: decoding of the signer list, in order, aborting
at the first failing record (first-detection error propagation). -/
def pkcs7_get_signers_list :
    List RawSignerInfo → Except Int (List mbedtls_pkcs7_signer_info)
  | [] => Except.ok []
  | r :: rs =>
    match pkcs7_get_signer_info r with
    | Except.error e => Except.error e
    | Except.ok s =>
      match pkcs7_get_signers_list rs with
      | Except.error e => Except.error e
      | Except.ok ss => Except.ok (s :: ss)

/-- Modelled from the spec: the signer-info set must contain at least one
entry; an empty set is invalid signer info. -/
def pkcs7_get_signers_info_set (rs : List RawSignerInfo) :
    Except Int (List mbedtls_pkcs7_signer_info) :=
  if rs.isEmpty then Except.error MBEDTLS_ERR_PKCS7_INVALID_SIGNER_INFO
  else pkcs7_get_signers_list rs

/-- Modelled from the spec: the optional certificate set must hold exactly
one X.509-encoded certificate when present (any other count, or a non-X.509
entry, is an invalid-certificate failure); absent means zero. -/
def pkcs7_get_certificates : List RawCertEntry → Except Int (List mbedtls_x509_crt)
  | [] => Except.ok []
  | [c] =>
    if c.isX509 then Except.ok [c.cert]
    else Except.error MBEDTLS_ERR_PKCS7_INVALID_CERT
  | _ :: _ :: _ => Except.error MBEDTLS_ERR_PKCS7_INVALID_CERT

/-- Modelled from the spec: the SignedData Decoder (pkcs7.c is not in the
source tree).  In strict sequence order: version must equal 1 (else invalid
version); the digest-algorithm set must contain exactly one entry, retained
as the aggregate identifier (else invalid algorithm); inner content oid and
optional payload are recorded as-is; optional certificate set; the
revocation-list set must be empty (else invalid format); signer-info set
with at least one entry. -/
def pkcs7_get_signed_data (sd : RawSignedData) :
    Except Int mbedtls_pkcs7_signed_data :=
  if sd.version ≠ 1 then Except.error MBEDTLS_ERR_PKCS7_INVALID_VERSION
  else
    match sd.digestAlgIds with
    | [alg] =>
      match pkcs7_get_certificates sd.certList with
      | Except.error e => Except.error e
      | Except.ok cs =>
        if sd.crlCount ≠ 0 then Except.error MBEDTLS_ERR_PKCS7_INVALID_FORMAT
        else
          match pkcs7_get_signers_info_set sd.signerList with
          | Except.error e => Except.error e
          | Except.ok ss =>
            Except.ok ⟨sd.version, alg, ⟨sd.contentOid, sd.contentData⟩,
                       cs.length, cs, 0, ss.length, ss⟩
    | _ => Except.error MBEDTLS_ERR_PKCS7_INVALID_ALG

/-- Modelled from the spec: the ContentInfo Decoder.  A malformed outer
sequence or an unrecognized content-type identifier is invalid content info;
a recognized-but-unsupported content type is feature unavailable; the
signed-data identifier dispatches the inner content to the SignedData
Decoder.  The structure keeps an owned copy of the raw input bytes and the
outer content-type identifier. -/
def pkcs7_parse_core (input : ParseInput) : Except Int mbedtls_pkcs7 :=
  if input.outerOk = false then Except.error MBEDTLS_ERR_PKCS7_INVALID_CONTENT_INFO
  else
    match input.contentType with
    | ContentType.signedData =>
      match input.inner with
      | none => Except.error MBEDTLS_ERR_PKCS7_INVALID_CONTENT_INFO
      | some sd =>
        match pkcs7_get_signed_data sd with
        | Except.error e => Except.error e
        | Except.ok s => Except.ok ⟨⟨0, input.rawBytes⟩, oidSignedData, s⟩
    | ContentType.unrecognized => Except.error MBEDTLS_ERR_PKCS7_INVALID_CONTENT_INFO
    | _ => Except.error MBEDTLS_ERR_PKCS7_FEATURE_UNAVAILABLE

/-- Modelled from the spec: mbedtls_pkcs7_parse_der (pkcs7.c is not in the
source tree).  Fills the given structure from the DER input; on success it
returns the discovered mbedtls_pkcs7_type (always signed-data); on failure
it returns a negative error code and any partial allocation is reclaimed,
leaving the structure in the zeroed/empty state it had after init.  The
first component of the result is the state of the structure after the call,
the second the C return value. -/
def mbedtls_pkcs7_parse_der (_pkcs7 : mbedtls_pkcs7) (input : ParseInput) :
    mbedtls_pkcs7 × Int :=
  match pkcs7_parse_core input with
  | Except.ok p => (p, MBEDTLS_PKCS7_SIGNED_DATA)
  | Except.error e => (pkcs7Zero, e)

/-! ## Verification engine.
The digest and signature primitives are external collaborators, treated by
the spec as pure functions; they are parameters of the engine.  The current
time is an explicit argument, since the result is a function of the inputs
plus the current time. -/

/-- External digest and public-key primitives: output length of a digest
algorithm, digest computation, and signature verification taking the public
key, the signature-algorithm identifier, the digest and the signature
bytes. -/
structure CryptoSuite where
  hashLen : mbedtls_pkcs7_buf → Nat
  computeDigest : mbedtls_pkcs7_buf → List Nat → List Nat
  verifySig : Nat → mbedtls_pkcs7_buf → List Nat → List Nat → Bool

/-- The validity window of the certificate contains the given time. -/
def x509TimeInWindow (cert : mbedtls_x509_crt) (now : Int) : Bool :=
  decide (cert.valid_from ≤ now) && decide (now ≤ cert.valid_to)

/-- Modelled from the spec: signer-record selection, the record whose raw
issuer bytes and serial number match the supplied certificate. -/
def findMatchingSigner (cert : mbedtls_x509_crt) :
    List mbedtls_pkcs7_signer_info → Option mbedtls_pkcs7_signer_info
  | [] => none
  | s :: ss =>
    if s.issuer_raw = cert.issuer_raw ∧ s.serial = cert.serial then some s
    else findMatchingSigner cert ss

/-- Modelled from the spec: the shared verification algorithm behind both
entry points (pkcs7.c is not in the source tree).  Steps, in order: reject
immediately when the structure has zero signer records; check the
certificate validity window contains the verification time, else the
distinct certificate-date-invalid failure; select the signer record
matching the certificate by raw issuer bytes and serial, no match is a
verification failure; for the hash entry point, a hash whose length does
not match the declared digest algorithm is invalid input; finally verify
the signature bytes against the digest with the external primitive, any
mismatch is a verification failure and success is 0. -/
def pkcs7_data_or_hash_verify (cs : CryptoSuite) (pkcs7 : mbedtls_pkcs7)
    (cert : mbedtls_x509_crt) (hash : List Nat) (checkHashLen : Bool)
    (now : Int) : Int :=
  if pkcs7.signed_data.signers.isEmpty then MBEDTLS_ERR_PKCS7_BAD_INPUT_DATA
  else if x509TimeInWindow cert now = false then
    MBEDTLS_ERR_PKCS7_CERT_DATE_INVALID
  else
    match findMatchingSigner cert pkcs7.signed_data.signers with
    | none => MBEDTLS_ERR_PKCS7_VERIFY_FAIL
    | some s =>
      if checkHashLen ∧
          hash.length ≠ cs.hashLen pkcs7.signed_data.digest_alg_identifiers then
        MBEDTLS_ERR_PKCS7_BAD_INPUT_DATA
      else if cs.verifySig cert.pk s.sig_alg_identifier hash s.sig.bytes then 0
      else MBEDTLS_ERR_PKCS7_VERIFY_FAIL

/-- Modelled from the spec: mbedtls_pkcs7_signed_hash_verify (pkcs7.c is not
in the source tree).  Takes a digest already computed with the structures
declared digest algorithm; a length mismatch is invalid input, not a
verification failure.  The first component of the result is the state of
the structure after the call, the second the C return value. -/
def mbedtls_pkcs7_signed_hash_verify (cs : CryptoSuite) (pkcs7 : mbedtls_pkcs7)
    (cert : mbedtls_x509_crt) (hash : List Nat) (now : Int) :
    mbedtls_pkcs7 × Int :=
  (pkcs7, pkcs7_data_or_hash_verify cs pkcs7 cert hash true now)

/-- Modelled from the spec: mbedtls_pkcs7_signed_data_verify (pkcs7.c is not
in the source tree).  Computes the digest of the data with the digest
algorithm recorded in the structure, then proceeds as verify-by-hash.  The
first component of the result is the state of the structure after the call,
the second the C return value. -/
def mbedtls_pkcs7_signed_data_verify (cs : CryptoSuite) (pkcs7 : mbedtls_pkcs7)
    (cert : mbedtls_x509_crt) (data : List Nat) (now : Int) :
    mbedtls_pkcs7 × Int :=
  (pkcs7,
   pkcs7_data_or_hash_verify cs pkcs7 cert
     (cs.computeDigest pkcs7.signed_data.digest_alg_identifiers data) false now)

/-! ## Concrete values used to instantiate the theorems -/

/-- DER algorithm identifier for SHA-256 (2.16.840.1.101.3.4.2.1). -/
def algSha256 : mbedtls_pkcs7_buf :=
  ⟨0x30, [0x60, 0x86, 0x48, 0x01, 0x65, 0x03, 0x04, 0x02, 0x01]⟩

/-- A second, distinct algorithm identifier (SHA-1, 1.3.14.3.2.26). -/
def algSha1 : mbedtls_pkcs7_buf := ⟨0x30, [0x2b, 0x0e, 0x03, 0x02, 0x1a]⟩

/-- A well-formed signer record: version 1, no attributes, no decode
failure. -/
def goodSigner : RawSignerInfo :=
  ⟨1, ⟨0x02, [0x09]⟩, [⟨0x31, [0x01]⟩], ⟨0x30, [0x01]⟩, algSha256,
   ⟨0x30, [0x05]⟩, ⟨0x04, [0x07, 0x07]⟩, false, false, false⟩

/-- A signer record with version 3, otherwise well formed. -/
def badVersionSigner : RawSignerInfo :=
  ⟨3, ⟨0x02, [0x09]⟩, [⟨0x31, [0x01]⟩], ⟨0x30, [0x01]⟩, algSha256,
   ⟨0x30, [0x05]⟩, ⟨0x04, [0x07, 0x07]⟩, false, false, false⟩

/-- A fully well-formed SignedData view: version 1, one digest algorithm,
detached content, no certificates, empty crl set, one signer. -/
def goodSignedDataRaw : RawSignedData :=
  ⟨1, [algSha256], ⟨0x06, [0x01]⟩, none, [], 0, [goodSigner]⟩

/-- A fully well-formed parse input. -/
def goodInput : ParseInput :=
  ⟨true, ContentType.signedData, some goodSignedDataRaw, [0x30, 0x00]⟩

/-- An input whose outer sequence is malformed. -/
def badOuterInput : ParseInput := ⟨false, ContentType.signedData, none, []⟩

/-- An input declaring the recognized-but-unsupported enveloped-data type. -/
def envelopedInput : ParseInput := ⟨true, ContentType.envelopedData, none, []⟩

/-- SignedData view with two digest algorithms, otherwise well formed. -/
def twoAlgSignedDataRaw : RawSignedData :=
  ⟨1, [algSha256, algSha1], ⟨0x06, [0x01]⟩, none, [], 0, [goodSigner]⟩

/-- Parse input with two digest algorithms. -/
def twoAlgInput : ParseInput :=
  ⟨true, ContentType.signedData, some twoAlgSignedDataRaw, [0x30, 0x00]⟩

/-- SignedData view with version 3, otherwise well formed. -/
def badVersionSignedDataRaw : RawSignedData :=
  ⟨3, [algSha256], ⟨0x06, [0x01]⟩, none, [], 0, [goodSigner]⟩

/-- Parse input with SignedData version 3. -/
def badVersionInput : ParseInput :=
  ⟨true, ContentType.signedData, some badVersionSignedDataRaw, [0x30, 0x00]⟩

/-- SignedData view whose only signer has version 3, otherwise well formed. -/
def signerBadVersionSignedDataRaw : RawSignedData :=
  ⟨1, [algSha256], ⟨0x06, [0x01]⟩, none, [], 0, [badVersionSigner]⟩

/-- Parse input whose only signer record has version 3. -/
def signerBadVersionInput : ParseInput :=
  ⟨true, ContentType.signedData, some signerBadVersionSignedDataRaw, [0x30, 0x00]⟩

/-- A concrete crypto suite: 32-byte digests, verification always
succeeds (the claims under test do not depend on the primitive). -/
def suite0 : CryptoSuite :=
  ⟨fun _ => 32, fun _ _ => List.replicate 32 0, fun _ _ _ _ => true⟩

/-- A certificate that does not match goodSigner by issuer and serial,
valid from time 0 to time 10. -/
def cert0 : mbedtls_x509_crt := ⟨⟨0x30, [0x03]⟩, ⟨0x02, [0x04]⟩, 0, 10, 7⟩

/-- A certificate matching goodSigner by raw issuer bytes and serial,
valid from time 0 to time 10. -/
def cert1 : mbedtls_x509_crt := ⟨⟨0x30, [0x01]⟩, ⟨0x02, [0x09]⟩, 0, 10, 7⟩

/-! ## Helper lemmas about the decoders -/

theorem pkcs7_get_signer_info_error_neg (r : RawSignerInfo) (e : Int)
    (h : pkcs7_get_signer_info r = Except.error e) : e < 0 := by
  unfold pkcs7_get_signer_info at h
  split at h
  · rw [Except.error.injEq] at h; subst h; decide
  · split at h
    · rw [Except.error.injEq] at h; subst h; decide
    · split at h
      · rw [Except.error.injEq] at h; subst h; decide
      · exact Except.noConfusion h

theorem pkcs7_get_signer_info_ok_of_clean (r : RawSignerInfo)
    (hm : r.malformed = false) (hv : r.version = 1)
    (ha : r.hasAuthenticatedAttributes = false)
    (hu : r.hasUnauthenticatedAttributes = false) :
    pkcs7_get_signer_info r =
      Except.ok ⟨r.version, r.serial, r.issuer, r.issuer_raw,
                 r.alg_identifier, r.sig_alg_identifier, r.sig⟩ := by
  unfold pkcs7_get_signer_info
  rw [hm, hv, ha, hu]
  simp

theorem pkcs7_get_signer_info_bad_version (r : RawSignerInfo)
    (hm : r.malformed = false) (hv : r.version ≠ 1) :
    pkcs7_get_signer_info r = Except.error MBEDTLS_ERR_PKCS7_INVALID_VERSION := by
  unfold pkcs7_get_signer_info
  rw [hm]
  simp [hv]

theorem pkcs7_get_signers_list_error_neg :
    ∀ (rs : List RawSignerInfo) (e : Int),
      pkcs7_get_signers_list rs = Except.error e → e < 0
  | [], _, h => by simp [pkcs7_get_signers_list] at h
  | r :: rs, e, h => by
    unfold pkcs7_get_signers_list at h
    cases hr : pkcs7_get_signer_info r with
    | error e2 =>
      rw [hr] at h
      rw [Except.error.injEq] at h
      subst h
      exact pkcs7_get_signer_info_error_neg r _ hr
    | ok s =>
      rw [hr] at h
      cases hl : pkcs7_get_signers_list rs with
      | error e2 =>
        rw [hl] at h
        rw [Except.error.injEq] at h
        subst h
        exact pkcs7_get_signers_list_error_neg rs _ hl
      | ok ss => rw [hl] at h; exact Except.noConfusion h

theorem pkcs7_get_signers_list_length :
    ∀ (rs : List RawSignerInfo) (ss : List mbedtls_pkcs7_signer_info),
      pkcs7_get_signers_list rs = Except.ok ss → ss.length = rs.length
  | [], ss, h => by
    simp only [pkcs7_get_signers_list, Except.ok.injEq] at h
    subst h; rfl
  | r :: rs, ss, h => by
    unfold pkcs7_get_signers_list at h
    cases hr : pkcs7_get_signer_info r with
    | error e2 => rw [hr] at h; exact Except.noConfusion h
    | ok s =>
      rw [hr] at h
      cases hl : pkcs7_get_signers_list rs with
      | error e2 => rw [hl] at h; exact Except.noConfusion h
      | ok ss2 =>
        rw [hl] at h
        rw [Except.ok.injEq] at h
        subst h
        simp [pkcs7_get_signers_list_length rs ss2 hl]

theorem pkcs7_get_signers_info_set_ok (rs : List RawSignerInfo)
    (ss : List mbedtls_pkcs7_signer_info)
    (h : pkcs7_get_signers_info_set rs = Except.ok ss) :
    ss.length = rs.length ∧ 1 ≤ ss.length := by
  unfold pkcs7_get_signers_info_set at h
  split at h
  · exact Except.noConfusion h
  · next hne =>
    have hl := pkcs7_get_signers_list_length rs ss h
    refine ⟨hl, ?_⟩
    rw [hl]
    cases rs with
    | nil => simp [List.isEmpty] at hne
    | cons a l => simp

theorem pkcs7_get_signers_info_set_error_neg (rs : List RawSignerInfo) (e : Int)
    (h : pkcs7_get_signers_info_set rs = Except.error e) : e < 0 := by
  unfold pkcs7_get_signers_info_set at h
  split at h
  · rw [Except.error.injEq] at h; subst h; decide
  · exact pkcs7_get_signers_list_error_neg rs e h

theorem pkcs7_get_certificates_ok :
    ∀ (cl : List RawCertEntry) (cs : List mbedtls_x509_crt),
      pkcs7_get_certificates cl = Except.ok cs → cs.length ≤ 1
  | [], cs, h => by
    simp only [pkcs7_get_certificates, Except.ok.injEq] at h
    subst h; decide
  | [c], cs, h => by
    simp only [pkcs7_get_certificates] at h
    split at h
    · rw [Except.ok.injEq] at h; subst h; simp
    · exact Except.noConfusion h
  | c1 :: c2 :: cl, cs, h => by
    simp only [pkcs7_get_certificates] at h
    exact Except.noConfusion h

theorem pkcs7_get_certificates_error_neg :
    ∀ (cl : List RawCertEntry) (e : Int),
      pkcs7_get_certificates cl = Except.error e → e < 0
  | [], e, h => by
    simp only [pkcs7_get_certificates] at h
    exact Except.noConfusion h
  | [c], e, h => by
    simp only [pkcs7_get_certificates] at h
    split at h
    · exact Except.noConfusion h
    · rw [Except.error.injEq] at h; subst h; decide
  | c1 :: c2 :: cl, e, h => by
    simp only [pkcs7_get_certificates] at h
    rw [Except.error.injEq] at h; subst h; decide

theorem pkcs7_get_signed_data_ok (sd : RawSignedData)
    (s : mbedtls_pkcs7_signed_data)
    (h : pkcs7_get_signed_data sd = Except.ok s) :
    s.version = 1 ∧ sd.digestAlgIds = [s.digest_alg_identifiers] ∧
    s.no_of_certs = s.certs.length ∧ s.no_of_certs ≤ 1 ∧
    s.no_of_crls = 0 ∧
    s.no_of_signers = s.signers.length ∧ 1 ≤ s.no_of_signers := by
  unfold pkcs7_get_signed_data at h
  split at h
  · exact Except.noConfusion h
  · next hver =>
    split at h
    · next alg heq =>
      split at h
      · exact Except.noConfusion h
      · next cs hcert =>
        split at h
        · exact Except.noConfusion h
        · next hcrl =>
          split at h
          · exact Except.noConfusion h
          · next ss hsign =>
            rw [Except.ok.injEq] at h
            subst h
            have hcs := pkcs7_get_certificates_ok sd.certList cs hcert
            have hss := pkcs7_get_signers_info_set_ok sd.signerList ss hsign
            exact ⟨not_not.mp hver, heq, rfl, hcs, rfl, rfl, hss.2⟩
    · exact Except.noConfusion h

theorem pkcs7_get_signed_data_error_neg (sd : RawSignedData) (e : Int)
    (h : pkcs7_get_signed_data sd = Except.error e) : e < 0 := by
  unfold pkcs7_get_signed_data at h
  split at h
  · rw [Except.error.injEq] at h; subst h; decide
  · split at h
    · next alg heq =>
      split at h
      · next e2 hcert =>
        rw [Except.error.injEq] at h
        subst h
        exact pkcs7_get_certificates_error_neg sd.certList _ hcert
      · split at h
        · rw [Except.error.injEq] at h; subst h; decide
        · split at h
          · next e2 hsign =>
            rw [Except.error.injEq] at h
            subst h
            exact pkcs7_get_signers_info_set_error_neg sd.signerList _ hsign
          · exact Except.noConfusion h
    · rw [Except.error.injEq] at h; subst h; decide

theorem pkcs7_get_signers_list_bad_version :
    ∀ (rs : List RawSignerInfo),
      (∀ r ∈ rs, r.malformed = false ∧ r.hasAuthenticatedAttributes = false ∧
        r.hasUnauthenticatedAttributes = false) →
      (∃ r ∈ rs, r.version ≠ 1) →
      pkcs7_get_signers_list rs = Except.error MBEDTLS_ERR_PKCS7_INVALID_VERSION
  | [], _, hbad => by simp at hbad
  | r :: rs, hclean, hbad => by
    have hc := hclean r (by simp)
    by_cases hv : r.version = 1
    · have hok := pkcs7_get_signer_info_ok_of_clean r hc.1 hv hc.2.1 hc.2.2
      have hbad2 : ∃ r2 ∈ rs, r2.version ≠ 1 := by
        rcases hbad with ⟨r2, hr2, hv2⟩
        rcases List.mem_cons.mp hr2 with h1 | h2
        · subst h1; exact absurd hv hv2
        · exact ⟨r2, h2, hv2⟩
      have ih := pkcs7_get_signers_list_bad_version rs
        (fun x hx => hclean x (List.mem_cons_of_mem r hx)) hbad2
      unfold pkcs7_get_signers_list
      rw [hok, ih]
    · have herr := pkcs7_get_signer_info_bad_version r hc.1 hv
      unfold pkcs7_get_signers_list
      rw [herr]

theorem pkcs7_parse_core_error_neg (input : ParseInput) (e : Int)
    (h : pkcs7_parse_core input = Except.error e) : e < 0 := by
  unfold pkcs7_parse_core at h
  split at h
  · rw [Except.error.injEq] at h; subst h; decide
  · split at h
    · split at h
      · rw [Except.error.injEq] at h; subst h; decide
      · split at h
        · next e2 hsd =>
          rw [Except.error.injEq] at h
          subst h
          exact pkcs7_get_signed_data_error_neg _ _ hsd
        · exact Except.noConfusion h
    · rw [Except.error.injEq] at h; subst h; decide
    · rw [Except.error.injEq] at h; subst h; decide

theorem pkcs7_parse_der_of_core_ok (p7 : mbedtls_pkcs7) (input : ParseInput)
    (p : mbedtls_pkcs7) (hc : pkcs7_parse_core input = Except.ok p) :
    mbedtls_pkcs7_parse_der p7 input = (p, MBEDTLS_PKCS7_SIGNED_DATA) := by
  unfold mbedtls_pkcs7_parse_der
  rw [hc]

theorem pkcs7_parse_der_of_core_error (p7 : mbedtls_pkcs7) (input : ParseInput)
    (e : Int) (hc : pkcs7_parse_core input = Except.error e) :
    mbedtls_pkcs7_parse_der p7 input = (pkcs7Zero, e) := by
  unfold mbedtls_pkcs7_parse_der
  rw [hc]

theorem pkcs7_parse_core_ok_shape (input : ParseInput) (p : mbedtls_pkcs7)
    (hc : pkcs7_parse_core input = Except.ok p) :
    input.outerOk = true ∧ input.contentType = ContentType.signedData ∧
    ∃ sd s, input.inner = some sd ∧ pkcs7_get_signed_data sd = Except.ok s ∧
      p = ⟨⟨0, input.rawBytes⟩, oidSignedData, s⟩ := by
  unfold pkcs7_parse_core at hc
  split at hc
  · exact Except.noConfusion hc
  · next houter =>
    simp only [Bool.not_eq_false] at houter
    split at hc
    · next hct =>
      split at hc
      · exact Except.noConfusion hc
      · next sd hinner =>
        split at hc
        · exact Except.noConfusion hc
        · next s hsd =>
          rw [Except.ok.injEq] at hc
          exact ⟨houter, hct, sd, s, hinner, hsd, hc.symm⟩
    · exact Except.noConfusion hc
    · exact Except.noConfusion hc

/-! ## Claim theorems -/

/-- C1: parse is all-or-nothing: whenever mbedtls_pkcs7_parse_der returns a
negative error code, the structure is left in the zeroed/empty state
produced by mbedtls_pkcs7_init (no field populated, no partial signer list,
certificate or raw-byte copy retained). -/
theorem pkcs7_parse_der_all_or_nothing (p7 : mbedtls_pkcs7) (input : ParseInput)
    (h : (mbedtls_pkcs7_parse_der p7 input).2 < 0) :
    (mbedtls_pkcs7_parse_der p7 input).1 = mbedtls_pkcs7_init := by
  cases hc : pkcs7_parse_core input with
  | ok p =>
    rw [pkcs7_parse_der_of_core_ok p7 input p hc] at h
    exact absurd h (show ¬ MBEDTLS_PKCS7_SIGNED_DATA < 0 by decide)
  | error e =>
    rw [pkcs7_parse_der_of_core_error p7 input e hc]
    rfl

/-- Witness for C1 at a concrete input with a malformed outer sequence. -/
theorem pkcs7_parse_der_all_or_nothing_witness :
    (mbedtls_pkcs7_parse_der pkcs7Zero badOuterInput).2 < 0 ∧
    (mbedtls_pkcs7_parse_der pkcs7Zero badOuterInput).1 = mbedtls_pkcs7_init :=
  ⟨by decide, pkcs7_parse_der_all_or_nothing pkcs7Zero badOuterInput (by decide)⟩

/-- C2: post-parse structural invariant: on any input on which
mbedtls_pkcs7_parse_der succeeds, the resulting structure has signed-data
version 1, exactly one recorded digest-algorithm identifier (the single
entry of the input digest-algorithm set), certificate count 0 or 1 equal to
the number of stored certificates, revocation-list count 0, and signer
count at least 1 and equal to the length of the signer sequence. -/
theorem pkcs7_parse_der_post_invariant (p7 : mbedtls_pkcs7) (input : ParseInput)
    (h : 0 ≤ (mbedtls_pkcs7_parse_der p7 input).2) :
    (mbedtls_pkcs7_parse_der p7 input).1.signed_data.version = 1 ∧
    (∃ sd, input.inner = some sd ∧
      sd.digestAlgIds =
        [(mbedtls_pkcs7_parse_der p7 input).1.signed_data.digest_alg_identifiers]) ∧
    (mbedtls_pkcs7_parse_der p7 input).1.signed_data.no_of_certs ≤ 1 ∧
    (mbedtls_pkcs7_parse_der p7 input).1.signed_data.no_of_certs =
      (mbedtls_pkcs7_parse_der p7 input).1.signed_data.certs.length ∧
    (mbedtls_pkcs7_parse_der p7 input).1.signed_data.no_of_crls = 0 ∧
    1 ≤ (mbedtls_pkcs7_parse_der p7 input).1.signed_data.no_of_signers ∧
    (mbedtls_pkcs7_parse_der p7 input).1.signed_data.no_of_signers =
      (mbedtls_pkcs7_parse_der p7 input).1.signed_data.signers.length := by
  cases hc : pkcs7_parse_core input with
  | error e =>
    rw [pkcs7_parse_der_of_core_error p7 input e hc] at h
    have hneg := pkcs7_parse_core_error_neg input e hc
    have h2 : (0 : Int) ≤ e := h
    omega
  | ok p =>
    rw [pkcs7_parse_der_of_core_ok p7 input p hc]
    rcases pkcs7_parse_core_ok_shape input p hc with
      ⟨_, _, sd, s, hinner, hsd, hp⟩
    subst hp
    have hps := pkcs7_get_signed_data_ok sd s hsd
    exact ⟨hps.1, ⟨sd, hinner, hps.2.1⟩, hps.2.2.2.1, hps.2.2.1,
           hps.2.2.2.2.1, hps.2.2.2.2.2.2, hps.2.2.2.2.2.1⟩

/-- Witness for C2 at a concrete fully well-formed input. -/
theorem pkcs7_parse_der_post_invariant_witness :
    0 ≤ (mbedtls_pkcs7_parse_der pkcs7Zero goodInput).2 ∧
    (mbedtls_pkcs7_parse_der pkcs7Zero goodInput).1.signed_data.version = 1 ∧
    (∃ sd, goodInput.inner = some sd ∧
      sd.digestAlgIds =
        [(mbedtls_pkcs7_parse_der pkcs7Zero goodInput).1.signed_data.digest_alg_identifiers]) ∧
    (mbedtls_pkcs7_parse_der pkcs7Zero goodInput).1.signed_data.no_of_certs ≤ 1 ∧
    (mbedtls_pkcs7_parse_der pkcs7Zero goodInput).1.signed_data.no_of_certs =
      (mbedtls_pkcs7_parse_der pkcs7Zero goodInput).1.signed_data.certs.length ∧
    (mbedtls_pkcs7_parse_der pkcs7Zero goodInput).1.signed_data.no_of_crls = 0 ∧
    1 ≤ (mbedtls_pkcs7_parse_der pkcs7Zero goodInput).1.signed_data.no_of_signers ∧
    (mbedtls_pkcs7_parse_der pkcs7Zero goodInput).1.signed_data.no_of_signers =
      (mbedtls_pkcs7_parse_der pkcs7Zero goodInput).1.signed_data.signers.length :=
  ⟨by decide, pkcs7_parse_der_post_invariant pkcs7Zero goodInput (by decide)⟩

/-- C3: ContentInfo dispatch: mbedtls_pkcs7_parse_der returns the
signed-data type marker (non-negative) exactly when the outer envelope is
well formed, the content type is the signed-data identifier and the inner
SignedData decodes successfully; a recognized-but-unsupported content type
yields feature unavailable; a malformed outer sequence or unrecognized
identifier yields invalid content info. -/
theorem pkcs7_parse_der_dispatch (p7 : mbedtls_pkcs7) (input : ParseInput) :
    (0 ≤ MBEDTLS_PKCS7_SIGNED_DATA ∧
      ((mbedtls_pkcs7_parse_der p7 input).2 = MBEDTLS_PKCS7_SIGNED_DATA ↔
        input.outerOk = true ∧ input.contentType = ContentType.signedData ∧
        ∃ sd s, input.inner = some sd ∧
          pkcs7_get_signed_data sd = Except.ok s)) ∧
    (input.outerOk = true → contentTypeUnsupported input.contentType = true →
      (mbedtls_pkcs7_parse_der p7 input).2 =
        MBEDTLS_ERR_PKCS7_FEATURE_UNAVAILABLE) ∧
    (input.outerOk = false ∨ input.contentType = ContentType.unrecognized →
      (mbedtls_pkcs7_parse_der p7 input).2 =
        MBEDTLS_ERR_PKCS7_INVALID_CONTENT_INFO) := by
  refine ⟨⟨by decide, ?_, ?_⟩, ?_, ?_⟩
  · intro hret
    cases hc : pkcs7_parse_core input with
    | ok p =>
      rcases pkcs7_parse_core_ok_shape input p hc with
        ⟨ho, hct, sd, s, hinner, hsd, _⟩
      exact ⟨ho, hct, sd, s, hinner, hsd⟩
    | error e =>
      rw [pkcs7_parse_der_of_core_error p7 input e hc] at hret
      have hneg := pkcs7_parse_core_error_neg input e hc
      have he : e = MBEDTLS_PKCS7_SIGNED_DATA := hret
      rw [he] at hneg
      exact absurd hneg (by decide)
  · rintro ⟨ho, hct, sd, s, hinner, hsd⟩
    have hcore : pkcs7_parse_core input =
        Except.ok ⟨⟨0, input.rawBytes⟩, oidSignedData, s⟩ := by
      unfold pkcs7_parse_core
      rw [ho, hct, hinner]
      simp [hsd]
    rw [pkcs7_parse_der_of_core_ok p7 input _ hcore]
  · intro ho hun
    have hcore : pkcs7_parse_core input =
        Except.error MBEDTLS_ERR_PKCS7_FEATURE_UNAVAILABLE := by
      unfold pkcs7_parse_core
      rw [ho]
      cases hct : input.contentType <;> simp_all [contentTypeUnsupported]
    rw [pkcs7_parse_der_of_core_error p7 input _ hcore]
  · intro h
    rcases h with ho | hct
    · have hcore : pkcs7_parse_core input =
          Except.error MBEDTLS_ERR_PKCS7_INVALID_CONTENT_INFO := by
        unfold pkcs7_parse_core
        rw [ho]
        simp
      rw [pkcs7_parse_der_of_core_error p7 input _ hcore]
    · have hcore : pkcs7_parse_core input =
          Except.error MBEDTLS_ERR_PKCS7_INVALID_CONTENT_INFO := by
        unfold pkcs7_parse_core
        rw [hct]
        by_cases ho : input.outerOk = false <;> simp [ho]
      rw [pkcs7_parse_der_of_core_error p7 input _ hcore]

/-- Witness for C3: a concrete enveloped-data input is rejected as feature
unavailable. -/
theorem pkcs7_parse_der_dispatch_witness :
    (mbedtls_pkcs7_parse_der pkcs7Zero envelopedInput).2 =
      MBEDTLS_ERR_PKCS7_FEATURE_UNAVAILABLE :=
  (pkcs7_parse_der_dispatch pkcs7Zero envelopedInput).2.1 (by decide) (by decide)

/-- C4: version rejection: a signed-data message whose SignedData version is
not 1 fails parse with invalid version; a signed-data message whose
SignedData-level fields are accepted and whose signer records are free of
other defects but contain a record with version not 1 also fails parse with
invalid version. -/
theorem pkcs7_parse_der_version_rejection (p7 : mbedtls_pkcs7)
    (input : ParseInput) (sd : RawSignedData)
    (ho : input.outerOk = true)
    (hct : input.contentType = ContentType.signedData)
    (hinner : input.inner = some sd) :
    (sd.version ≠ 1 →
      (mbedtls_pkcs7_parse_der p7 input).2 = MBEDTLS_ERR_PKCS7_INVALID_VERSION) ∧
    (sd.version = 1 →
      (∀ r ∈ sd.signerList, r.malformed = false ∧
        r.hasAuthenticatedAttributes = false ∧
        r.hasUnauthenticatedAttributes = false) →
      (∃ r ∈ sd.signerList, r.version ≠ 1) →
      (∃ alg, sd.digestAlgIds = [alg]) →
      (∃ cs, pkcs7_get_certificates sd.certList = Except.ok cs) →
      sd.crlCount = 0 →
      (mbedtls_pkcs7_parse_der p7 input).2 =
        MBEDTLS_ERR_PKCS7_INVALID_VERSION) := by
  constructor
  · intro hv
    have hsd : pkcs7_get_signed_data sd =
        Except.error MBEDTLS_ERR_PKCS7_INVALID_VERSION := by
      unfold pkcs7_get_signed_data
      simp [hv]
    have hcore : pkcs7_parse_core input =
        Except.error MBEDTLS_ERR_PKCS7_INVALID_VERSION := by
      unfold pkcs7_parse_core
      rw [ho, hct, hinner]
      simp [hsd]
    rw [pkcs7_parse_der_of_core_error p7 input _ hcore]
  · intro hv hclean hbad halg hcert hcrl
    rcases halg with ⟨alg, halg⟩
    rcases hcert with ⟨cs, hcert⟩
    have hne : sd.signerList.isEmpty = false := by
      rcases hbad with ⟨r, hr, _⟩
      cases hl : sd.signerList with
      | nil => rw [hl] at hr; simp at hr
      | cons a l => simp [hl]
    have hset : pkcs7_get_signers_info_set sd.signerList =
        Except.error MBEDTLS_ERR_PKCS7_INVALID_VERSION := by
      unfold pkcs7_get_signers_info_set
      simp [hne]
      exact pkcs7_get_signers_list_bad_version sd.signerList hclean hbad
    have hsd : pkcs7_get_signed_data sd =
        Except.error MBEDTLS_ERR_PKCS7_INVALID_VERSION := by
      unfold pkcs7_get_signed_data
      rw [halg]
      simp [hv, hcrl, hcert, hset]
    have hcore : pkcs7_parse_core input =
        Except.error MBEDTLS_ERR_PKCS7_INVALID_VERSION := by
      unfold pkcs7_parse_core
      rw [ho, hct, hinner]
      simp [hsd]
    rw [pkcs7_parse_der_of_core_error p7 input _ hcore]

/-- Witness for C4 at concrete inputs: SignedData version 3 and a sole
signer record with version 3. -/
theorem pkcs7_parse_der_version_rejection_witness :
    (mbedtls_pkcs7_parse_der pkcs7Zero badVersionInput).2 =
      MBEDTLS_ERR_PKCS7_INVALID_VERSION ∧
    (mbedtls_pkcs7_parse_der pkcs7Zero signerBadVersionInput).2 =
      MBEDTLS_ERR_PKCS7_INVALID_VERSION :=
  ⟨(pkcs7_parse_der_version_rejection pkcs7Zero badVersionInput
      badVersionSignedDataRaw rfl rfl rfl).1 (by decide),
   (pkcs7_parse_der_version_rejection pkcs7Zero signerBadVersionInput
      signerBadVersionSignedDataRaw rfl rfl rfl).2 (by decide) (by decide)
      ⟨badVersionSigner, by decide, by decide⟩ ⟨algSha256, rfl⟩ ⟨[], rfl⟩ rfl⟩

/-- C5: single-digest-algorithm restriction: a signed-data message passing
the version check whose digest-algorithm set has two or more entries fails
parse with invalid algorithm; when parse succeeds, the digest-algorithm set
had exactly one entry and that entry is retained as the structures
digest-algorithm identifier. -/
theorem pkcs7_parse_der_single_digest_alg (p7 : mbedtls_pkcs7)
    (input : ParseInput) (sd : RawSignedData)
    (ho : input.outerOk = true)
    (hct : input.contentType = ContentType.signedData)
    (hinner : input.inner = some sd) :
    (sd.version = 1 → 2 ≤ sd.digestAlgIds.length →
      (mbedtls_pkcs7_parse_der p7 input).2 = MBEDTLS_ERR_PKCS7_INVALID_ALG) ∧
    (0 ≤ (mbedtls_pkcs7_parse_der p7 input).2 →
      ∃ alg, sd.digestAlgIds = [alg] ∧
        (mbedtls_pkcs7_parse_der p7 input).1.signed_data.digest_alg_identifiers =
          alg) := by
  constructor
  · intro hv hlen
    have hsd : pkcs7_get_signed_data sd =
        Except.error MBEDTLS_ERR_PKCS7_INVALID_ALG := by
      unfold pkcs7_get_signed_data
      simp [hv]
      cases hl : sd.digestAlgIds with
      | nil => rfl
      | cons a t =>
        cases t with
        | nil => rw [hl] at hlen; simp at hlen
        | cons b t2 => rfl
    have hcore : pkcs7_parse_core input =
        Except.error MBEDTLS_ERR_PKCS7_INVALID_ALG := by
      unfold pkcs7_parse_core
      rw [ho, hct, hinner]
      simp [hsd]
    rw [pkcs7_parse_der_of_core_error p7 input _ hcore]
  · intro hsucc
    cases hc : pkcs7_parse_core input with
    | error e =>
      rw [pkcs7_parse_der_of_core_error p7 input e hc] at hsucc
      have hneg := pkcs7_parse_core_error_neg input e hc
      have h2 : (0 : Int) ≤ e := hsucc
      omega
    | ok p =>
      rw [pkcs7_parse_der_of_core_ok p7 input p hc]
      rcases pkcs7_parse_core_ok_shape input p hc with
        ⟨_, _, sd2, s, hinner2, hsd, hp⟩
      rw [hinner] at hinner2
      injection hinner2 with hss
      subst hss
      have hps := pkcs7_get_signed_data_ok sd s hsd
      subst hp
      exact ⟨s.digest_alg_identifiers, hps.2.1, rfl⟩

/-- Witness for C5: a two-algorithm input fails with invalid algorithm; the
fully well-formed one-algorithm input retains its entry. -/
theorem pkcs7_parse_der_single_digest_alg_witness :
    (mbedtls_pkcs7_parse_der pkcs7Zero twoAlgInput).2 =
      MBEDTLS_ERR_PKCS7_INVALID_ALG ∧
    ∃ alg, goodSignedDataRaw.digestAlgIds = [alg] ∧
      (mbedtls_pkcs7_parse_der pkcs7Zero goodInput).1.signed_data.digest_alg_identifiers =
        alg :=
  ⟨(pkcs7_parse_der_single_digest_alg pkcs7Zero twoAlgInput
      twoAlgSignedDataRaw rfl rfl rfl).1 (by decide) (by decide),
   (pkcs7_parse_der_single_digest_alg pkcs7Zero goodInput
      goodSignedDataRaw rfl rfl rfl).2 (by decide)⟩

theorem pkcs7_data_or_hash_verify_date_invalid (cs : CryptoSuite)
    (p : mbedtls_pkcs7) (cert : mbedtls_x509_crt) (hash : List Nat)
    (b : Bool) (now : Int)
    (hne : p.signed_data.signers.isEmpty = false)
    (hdate : x509TimeInWindow cert now = false) :
    pkcs7_data_or_hash_verify cs p cert hash b now =
      MBEDTLS_ERR_PKCS7_CERT_DATE_INVALID := by
  unfold pkcs7_data_or_hash_verify
  simp [hne, hdate]

theorem pkcs7_parsed_signers_nonempty (p7 : mbedtls_pkcs7) (input : ParseInput)
    (hsucc : 0 ≤ (mbedtls_pkcs7_parse_der p7 input).2) :
    (mbedtls_pkcs7_parse_der p7 input).1.signed_data.signers.isEmpty = false := by
  have hinv := pkcs7_parse_der_post_invariant p7 input hsucc
  have h1 := hinv.2.2.2.2.2.1
  have h2 := hinv.2.2.2.2.2.2
  cases hl : (mbedtls_pkcs7_parse_der p7 input).1.signed_data.signers with
  | nil =>
    rw [hl] at h2
    simp at h2
    omega
  | cons a l => simp [hl]

/-- C6: expired-certificate distinction: for any structure produced by a
successful parse and any certificate whose validity window does not contain
the verification time, both verification entry points fail with the
certificate-date-invalid code, distinct from the generic
verification-failed code, whatever the data, hash and crypto primitives
(in particular even when the signature would verify). -/
theorem pkcs7_verify_cert_date_invalid (cs : CryptoSuite)
    (p7 : mbedtls_pkcs7) (input : ParseInput) (cert : mbedtls_x509_crt)
    (hash data : List Nat) (now : Int)
    (hsucc : 0 ≤ (mbedtls_pkcs7_parse_der p7 input).2)
    (hdate : x509TimeInWindow cert now = false) :
    (mbedtls_pkcs7_signed_hash_verify cs
        (mbedtls_pkcs7_parse_der p7 input).1 cert hash now).2 =
      MBEDTLS_ERR_PKCS7_CERT_DATE_INVALID ∧
    (mbedtls_pkcs7_signed_data_verify cs
        (mbedtls_pkcs7_parse_der p7 input).1 cert data now).2 =
      MBEDTLS_ERR_PKCS7_CERT_DATE_INVALID ∧
    MBEDTLS_ERR_PKCS7_CERT_DATE_INVALID ≠ MBEDTLS_ERR_PKCS7_VERIFY_FAIL := by
  have hne := pkcs7_parsed_signers_nonempty p7 input hsucc
  exact ⟨pkcs7_data_or_hash_verify_date_invalid cs _ cert hash true now hne hdate,
         pkcs7_data_or_hash_verify_date_invalid cs _ cert _ false now hne hdate,
         by decide⟩

/-- Witness for C6: the structure parsed from goodInput, verified against
cert0 at time 99, outside the window from 0 to 10. -/
theorem pkcs7_verify_cert_date_invalid_witness :
    (mbedtls_pkcs7_signed_hash_verify suite0
        (mbedtls_pkcs7_parse_der pkcs7Zero goodInput).1 cert0 [] 99).2 =
      MBEDTLS_ERR_PKCS7_CERT_DATE_INVALID ∧
    (mbedtls_pkcs7_signed_data_verify suite0
        (mbedtls_pkcs7_parse_der pkcs7Zero goodInput).1 cert0 [1] 99).2 =
      MBEDTLS_ERR_PKCS7_CERT_DATE_INVALID ∧
    MBEDTLS_ERR_PKCS7_CERT_DATE_INVALID ≠ MBEDTLS_ERR_PKCS7_VERIFY_FAIL :=
  pkcs7_verify_cert_date_invalid suite0 pkcs7Zero goodInput cert0 [] [1] 99
    (by decide) (by decide)

/-- C7 counterexample: for the structure parsed from goodInput the hash []
has the wrong length for the recorded digest algorithm (0 instead of 32),
yet mbedtls_pkcs7_signed_hash_verify does not return the bad-input code in
general: with the out-of-window certificate cert0 at time 99 it returns
certificate-date-invalid, and with cert0 inside the window at time 5 (no
signer record matches cert0) it returns verification-failed. -/
theorem pkcs7_signed_hash_verify_wrong_len_counterexample :
    ([] : List Nat).length ≠
      suite0.hashLen
        (mbedtls_pkcs7_parse_der pkcs7Zero goodInput).1.signed_data.digest_alg_identifiers ∧
    (mbedtls_pkcs7_signed_hash_verify suite0
        (mbedtls_pkcs7_parse_der pkcs7Zero goodInput).1 cert0 [] 99).2 =
      MBEDTLS_ERR_PKCS7_CERT_DATE_INVALID ∧
    (mbedtls_pkcs7_signed_hash_verify suite0
        (mbedtls_pkcs7_parse_der pkcs7Zero goodInput).1 cert0 [] 5).2 =
      MBEDTLS_ERR_PKCS7_VERIFY_FAIL ∧
    MBEDTLS_ERR_PKCS7_CERT_DATE_INVALID ≠ MBEDTLS_ERR_PKCS7_BAD_INPUT_DATA ∧
    MBEDTLS_ERR_PKCS7_VERIFY_FAIL ≠ MBEDTLS_ERR_PKCS7_BAD_INPUT_DATA :=
  ⟨by decide, by decide, by decide, by decide, by decide⟩

/-- C7 amended: for a structure with at least one signer record (as every
parsed structure has), when the certificate passes the validity-window
check and a signer record matching the certificate is selected, a hash
whose length does not match the output length of the structures recorded
digest algorithm makes mbedtls_pkcs7_signed_hash_verify fail with the
bad-input code, distinct from the verification-failed code used for a
cryptographic mismatch. -/
theorem pkcs7_signed_hash_verify_bad_length (cs : CryptoSuite)
    (p7 : mbedtls_pkcs7) (cert : mbedtls_x509_crt) (hash : List Nat)
    (now : Int) (s : mbedtls_pkcs7_signer_info)
    (hne : p7.signed_data.signers.isEmpty = false)
    (hdate : x509TimeInWindow cert now = true)
    (hmatch : findMatchingSigner cert p7.signed_data.signers = some s)
    (hlen : hash.length ≠ cs.hashLen p7.signed_data.digest_alg_identifiers) :
    (mbedtls_pkcs7_signed_hash_verify cs p7 cert hash now).2 =
      MBEDTLS_ERR_PKCS7_BAD_INPUT_DATA ∧
    MBEDTLS_ERR_PKCS7_BAD_INPUT_DATA ≠ MBEDTLS_ERR_PKCS7_VERIFY_FAIL := by
  refine ⟨?_, by decide⟩
  unfold mbedtls_pkcs7_signed_hash_verify pkcs7_data_or_hash_verify
  simp [hne, hdate, hmatch, hlen]

/-- Witness for the amended C7: the structure parsed from goodInput, the
matching in-window certificate cert1 at time 5, and the empty hash. -/
theorem pkcs7_signed_hash_verify_bad_length_witness :
    (mbedtls_pkcs7_signed_hash_verify suite0
        (mbedtls_pkcs7_parse_der pkcs7Zero goodInput).1 cert1 [] 5).2 =
      MBEDTLS_ERR_PKCS7_BAD_INPUT_DATA ∧
    MBEDTLS_ERR_PKCS7_BAD_INPUT_DATA ≠ MBEDTLS_ERR_PKCS7_VERIFY_FAIL :=
  pkcs7_signed_hash_verify_bad_length suite0
    (mbedtls_pkcs7_parse_der pkcs7Zero goodInput).1 cert1 [] 5
    ⟨1, ⟨0x02, [0x09]⟩, [⟨0x31, [0x01]⟩], ⟨0x30, [0x01]⟩, algSha256,
     ⟨0x30, [0x05]⟩, ⟨0x04, [0x07, 0x07]⟩⟩
    (by decide) (by decide) (by decide) (by decide)

/-- C8: verification is side-effect-free: neither entry point modifies the
parsed structure; the state handed back is exactly the state passed in, for
every crypto suite, certificate, data, hash and time (the certificate
argument is const-qualified in pkcs7.h, and the result depends only on the
arguments shown). -/
theorem pkcs7_verify_no_mutation (cs : CryptoSuite) (p7 : mbedtls_pkcs7)
    (cert : mbedtls_x509_crt) (data hash : List Nat) (now : Int) :
    (mbedtls_pkcs7_signed_data_verify cs p7 cert data now).1 = p7 ∧
    (mbedtls_pkcs7_signed_hash_verify cs p7 cert hash now).1 = p7 :=
  ⟨rfl, rfl⟩

/-- C9: mbedtls_pkcs7_free resets any value to the zeroed/empty state, is
idempotent, and is a no-op on a never-parsed value produced by
mbedtls_pkcs7_init. -/
theorem pkcs7_free_idempotent (p7 : mbedtls_pkcs7) :
    mbedtls_pkcs7_free p7 = pkcs7Zero ∧
    mbedtls_pkcs7_free (mbedtls_pkcs7_free p7) = mbedtls_pkcs7_free p7 ∧
    mbedtls_pkcs7_free mbedtls_pkcs7_init = mbedtls_pkcs7_init :=
  ⟨rfl, rfl, rfl⟩

/-- C10: the twelve PKCS7 error constants are strictly negative and
pairwise distinct, every mbedtls_pkcs7_type value is non-negative, and no
value is both an error code and a content-type marker, so the success and
failure result spaces of mbedtls_pkcs7_parse_der are disjoint. -/
theorem pkcs7_error_codes_disjoint_from_types :
    pkcs7ErrorCodes.all (fun e => decide (e < 0)) = true ∧
    pkcs7ErrorCodes.Nodup ∧
    pkcs7TypeValues.all (fun t => decide (0 ≤ t)) = true ∧
    pkcs7ErrorCodes.all
      (fun e => pkcs7TypeValues.all (fun t => decide (e ≠ t))) = true :=
  ⟨by decide, by decide, by decide, by decide⟩
